import Mathlib

/-!
Shallow embedding of the pyextremes plotting fragment:
`src/pyextremes/plotting/style.py` and
`src/pyextremes/plotting/return_values.py`.

Conventions of the embedding:
* pandas DataFrames are assoc-lists of named columns plus an index;
  `df.loc[:, c]` is an Option-valued lookup (KeyError becomes `none`);
* real-valued cell data are exact rationals (the plotter performs no
  arithmetic on the data, it only forwards the arrays to draw calls);
* a matplotlib Axes is the ordered list of draw/configuration events
  issued on it; each `ax.xyz(...)` call appends one event;
* a Figure records the creation parameters (figsize, dpi, and the
  rcParams in force at creation time);
* `plt.rc_context(rc=...)` is modelled by computing the overridden
  rcParams for the body and returning the saved ones afterwards, which
  is the context-manager semantics (restore also on exception: the
  body returns errors as values);
* exceptions (KeyError / IndexError from column access) are modelled by
  an error result that carries the surface state reached at the point
  of failure.
-/

abbrev Val := ℚ

/-- A pandas DataFrame as used by the plotter: an index plus named
columns of rational values. -/
structure DataFrame where
  index : List Val
  columns : List (String × List Val)
deriving DecidableEq, Repr

/-- `df.loc[:, col]`: column lookup by name, first match; `none` models
the KeyError raised by pandas when the column is absent. -/
def DataFrame.loc (df : DataFrame) (col : String) : Option (List Val) :=
  (df.columns.find? (fun p => p.1 == col)).map Prod.snd

/-- matplotlib rcParams as an assoc-list from option name to value;
lookups take the first match, so prepending a mapping realizes
dict-update (override) semantics. -/
abbrev RcParams := List (String × String)

def lookupRc (ps : RcParams) (k : String) : Option String :=
  (ps.find? (fun p => p.1 == k)).map Prod.snd

/-- `rcParams.update(ov)`: values of `ov` shadow those of `g` under
first-match lookup. -/
def rcUpdate (g ov : RcParams) : RcParams := ov ++ g

/-- From `style.py`: the theme color constant. -/
def theme_color : String := "#454545"

/-- From `style.py`: the `pyextremes_rc` style mapping, verbatim; values
are kept as strings since the plotter never interprets them. -/
def pyextremes_rc : RcParams :=
  [ ("font.family", "arial")
  , ("font.size", "10")
  , ("text.color", theme_color)
  , ("axes.edgecolor", theme_color)
  , ("axes.linewidth", "0.8")
  , ("axes.grid", "True")
  , ("axes.labelsize", "10")
  , ("axes.labelweight", "normal")
  , ("axes.prop_cycle", "cycler(color, [#1771F1, #F85C50, #35D073, #FFC11E])")
  , ("xtick.major.size", "2")
  , ("xtick.minor.size", "1")
  , ("xtick.major.width", "0.8")
  , ("xtick.minor.width", "0.6")
  , ("xtick.major.top", "True")
  , ("xtick.major.bottom", "True")
  , ("xtick.minor.top", "True")
  , ("xtick.minor.bottom", "True")
  , ("xtick.color", theme_color)
  , ("ytick.major.size", "2")
  , ("ytick.minor.size", "1")
  , ("ytick.major.width", "0.8")
  , ("ytick.minor.width", "0.6")
  , ("ytick.color", theme_color)
  , ("ytick.major.left", "True")
  , ("ytick.major.right", "True")
  , ("ytick.minor.left", "True")
  , ("ytick.minor.right", "True")
  , ("grid.color", theme_color)
  , ("grid.linestyle", ":")
  , ("grid.linewidth", "0.4")
  , ("grid.alpha", "1.0")
  , ("legend.frameon", "False")
  , ("legend.edgecolor", theme_color)
  , ("figure.figsize", "(8, 5)")
  , ("figure.dpi", "96")
  ]

/-- One draw or configuration call issued on an Axes. -/
inductive DrawEvent where
  | semilogx : DrawEvent
  | grid (visible : Bool) (which : String) : DrawEvent
  | xMajorFormatter (fmt : String) : DrawEvent
  | plotLine (x y : List Val) (color : String) (lw : ℚ) (ls : String)
      (zorder : ℕ) : DrawEvent
  | fillBetween (x y1 y2 : List Val) (facecolor edgecolor : String)
      (alpha : ℚ) (zorder : ℕ) : DrawEvent
  | scatter (x y : List Val) (marker : String) (s : ℚ) (lw : ℚ)
      (facecolor edgecolor : String) (zorder : ℕ) : DrawEvent
  | xlabel (text : String) : DrawEvent
  | ylabel (text : String) : DrawEvent
deriving DecidableEq, Repr

/-- A matplotlib Axes: the ordered sequence of events issued on it. -/
structure Axes where
  events : List DrawEvent
deriving DecidableEq, Repr

/-- Issuing one call on an Axes appends its event. -/
def Axes.issue (a : Axes) (e : DrawEvent) : Axes :=
  { events := a.events ++ [e] }

/-- A matplotlib Figure: creation-time parameters, including the
rcParams in force when `plt.subplots` ran. -/
structure Figure where
  figsize : ℚ × ℚ
  dpi : ℕ
  rc : RcParams
deriving DecidableEq, Repr

/-- Exceptions the plotter can propagate from table access. -/
inductive PlotError where
  | keyError (key : String) : PlotError
  | indexError : PlotError
deriving DecidableEq, Repr

/-- Outcome of a call: either the returned `(fig, ax)` pair, or the
propagated exception together with the figure (if one was created) and
the surface state reached at the point of failure. -/
inductive PlotResult where
  | ok (fig : Option Figure) (ax : Axes) : PlotResult
  | err (e : PlotError) (fig : Option Figure) (ax : Axes) : PlotResult
deriving DecidableEq, Repr

def PlotResult.figOpt : PlotResult → Option Figure
  | .ok fig _ => fig
  | .err _ fig _ => fig

def PlotResult.axes : PlotResult → Axes
  | .ok _ ax => ax
  | .err _ _ ax => ax

def PlotResult.isOk : PlotResult → Bool
  | .ok _ _ => true
  | .err _ _ _ => false

def PlotResult.error? : PlotResult → Option PlotError
  | .ok _ _ => none
  | .err e _ _ => some e

/-- The body of the `with` block of `plot_return_values` after the
figure/axes branch: the straight-line sequence of draw calls, each
argument evaluated left to right, stopping at the first failing column
access (the source loop over the two confidence columns is unrolled).
Mirrors `return_values.py` lines 74 to 111. -/
def draw_all (observed modeled : DataFrame) (fig : Option Figure)
    (ax : Axes) : PlotResult :=
  let ax := ax.issue .semilogx
  let ax := ax.issue (.grid true "both")
  let ax := ax.issue (.xMajorFormatter "%.0f")
  match modeled.loc "return value" with
  | none => .err (.keyError "return value") fig ax
  | some rv =>
    let ax := ax.issue (.plotLine modeled.index rv "#F85C50" 2 "-" 20)
    match modeled.loc "lower ci" with
    | none => .err (.keyError "lower ci") fig ax
    | some lowerCi =>
      let ax := ax.issue (.plotLine modeled.index lowerCi "#5199FF" 1 "--" 15)
      match modeled.loc "upper ci" with
      | none => .err (.keyError "upper ci") fig ax
      | some upperCi =>
        let ax := ax.issue (.plotLine modeled.index upperCi "#5199FF" 1 "--" 15)
        let ax := ax.issue
          (.fillBetween modeled.index lowerCi upperCi "#5199FF" "None" 0.25 10)
        match observed.loc "return period" with
        | none => .err (.keyError "return period") fig ax
        | some returnPeriods =>
          match observed.columns.head? with
          | none => .err .indexError fig ax
          | some firstCol =>
            match observed.loc firstCol.1 with
            | none => .err (.keyError firstCol.1) fig ax
            | some firstVals =>
              let ax := ax.issue
                (.scatter returnPeriods firstVals "o" 20 1 "k" "w" 20)
              let ax := ax.issue (.xlabel "Return period")
              let ax := ax.issue (.ylabel firstCol.1)
              .ok fig ax

/-- The `with` body including the `if ax is None` branch: a fresh
figure (given figsize, dpi=96, current rcParams) and empty axes when no
axes were passed, otherwise draw in place and return no figure. -/
def plot_body (observed modeled : DataFrame) (ax : Option Axes)
    (figsize : ℚ × ℚ) (rc : RcParams) : PlotResult :=
  match ax with
  | none => draw_all observed modeled
      (some { figsize := figsize, dpi := 96, rc := rc }) { events := [] }
  | some a => draw_all observed modeled none a

/-- Default of the `figsize` parameter: `(8, 8/1.618)`. -/
def default_figsize : ℚ × ℚ := (8, 8 / 1.618)

/-- `plot_return_values(observed_return_values, modeled_return_values,
ax, figsize)` with the process-wide rcParams passed in explicitly; the
second component of the result is the global rcParams after the call:
`rc_context` applies `pyextremes_rc` on top of them for the body and
restores the saved ones on exit, whether the body returns or raises. -/
def plot_return_values (observed modeled : DataFrame) (ax : Option Axes)
    (figsize : ℚ × ℚ) (rcGlobal : RcParams) : PlotResult × RcParams :=
  (plot_body observed modeled ax figsize (rcUpdate rcGlobal pyextremes_rc),
   rcGlobal)

/-- The caller-visible mutable state around a call: the two caller-held
tables and the process-wide rcParams. -/
structure CallState where
  observed : DataFrame
  modeled : DataFrame
  rc : RcParams
deriving DecidableEq, Repr

/-- State-threaded view of a call: the tables live in the caller state
and every access of the body is a read, so the call returns the state
with tables untouched and rcParams restored. -/
def plot_return_values_stateful (ax : Option Axes) (figsize : ℚ × ℚ)
    (s : CallState) : PlotResult × CallState :=
  let r := plot_return_values s.observed s.modeled ax figsize s.rc
  (r.1, { observed := s.observed, modeled := s.modeled, rc := r.2 })

/-- The events already present on the drawing target before the call:
none for a fresh figure, the prior events of a provided axes. -/
def initialEvents : Option Axes → List DrawEvent
  | none => []
  | some a => a.events

/-- The three axes-configuration events issued before any data. -/
def configEvents : List DrawEvent :=
  [.semilogx, .grid true "both", .xMajorFormatter "%.0f"]

/-- The full event sequence a successful call appends to the target. -/
def successTail (idx rv lowerCi upperCi returnPeriods : List Val)
    (firstCol : String × List Val) : List DrawEvent :=
  [ .semilogx
  , .grid true "both"
  , .xMajorFormatter "%.0f"
  , .plotLine idx rv "#F85C50" 2 "-" 20
  , .plotLine idx lowerCi "#5199FF" 1 "--" 15
  , .plotLine idx upperCi "#5199FF" 1 "--" 15
  , .fillBetween idx lowerCi upperCi "#5199FF" "None" 0.25 10
  , .scatter returnPeriods firstCol.2 "o" 20 1 "k" "w" 20
  , .xlabel "Return period"
  , .ylabel firstCol.1
  ]

/-- The first column access that fails, in the evaluation order of the
source: the three modeled columns, then the observed return periods. -/
def firstMissing (observed modeled : DataFrame) : Option String :=
  if (modeled.loc "return value").isNone then some "return value"
  else if (modeled.loc "lower ci").isNone then some "lower ci"
  else if (modeled.loc "upper ci").isNone then some "upper ci"
  else if (observed.loc "return period").isNone then some "return period"
  else none

/-- Number of events already issued when the access of the given
missing column fails. -/
def prefixLen : String → ℕ
  | "return value" => 3
  | "lower ci" => 4
  | "upper ci" => 5
  | "return period" => 7
  | _ => 0

/-- Both tables hold every column the draw sequence reads. -/
def validPair (observed modeled : DataFrame) : Prop :=
  (observed.loc "return period").isSome = true ∧
  (modeled.loc "return value").isSome = true ∧
  (modeled.loc "lower ci").isSome = true ∧
  (modeled.loc "upper ci").isSome = true

instance (observed modeled : DataFrame) : Decidable (validPair observed modeled) := by
  unfold validPair; infer_instance

def DrawEvent.zorderOf : DrawEvent → Option ℕ
  | .plotLine _ _ _ _ _ z => some z
  | .fillBetween _ _ _ _ _ _ z => some z
  | .scatter _ _ _ _ _ _ _ z => some z
  | _ => none

def DrawEvent.zVal (e : DrawEvent) : ℕ := (e.zorderOf).getD 0

def DrawEvent.isBand : DrawEvent → Bool
  | .fillBetween _ _ _ _ _ _ _ => true
  | _ => false

def DrawEvent.isDashed : DrawEvent → Bool
  | .plotLine _ _ _ _ ls _ => ls == "--"
  | _ => false

def DrawEvent.isSolidLine : DrawEvent → Bool
  | .plotLine _ _ _ _ ls _ => ls == "-"
  | _ => false

def DrawEvent.isMarkers : DrawEvent → Bool
  | .scatter _ _ _ _ _ _ _ _ => true
  | _ => false

/- Concrete inputs used by witnesses and counterexamples. -/

/-- A valid observed table: water levels with their return periods. -/
def obsA : DataFrame :=
  { index := [0, 1, 2]
  , columns :=
      [ ("water level", [11/10, 9/5, 23/10])
      , ("return period", [2, 5, 10]) ] }

/-- A valid modeled table indexed by return period. -/
def modA : DataFrame :=
  { index := [1, 10, 100]
  , columns :=
      [ ("return value", [1, 2, 3])
      , ("lower ci", [0, 1, 2])
      , ("upper ci", [2, 3, 4]) ] }

/-- An observed table lacking the required return-period column. -/
def obsMissingRP : DataFrame :=
  { index := [0, 1, 2]
  , columns := [("water level", [1, 2, 3])] }

/-- A modeled table lacking the upper confidence bound column. -/
def modMissingUpper : DataFrame :=
  { index := [1, 10]
  , columns := [("return value", [1, 2]), ("lower ci", [0, 1])] }

/-- An observed table with a non-default primary column name. -/
def obsCustomName : DataFrame :=
  { index := [0]
  , columns := [("surge height (m)", [3]), ("return period", [7])] }

/-- obsA with an extra column inserted between the two used ones. -/
def obsAExtra : DataFrame :=
  { index := [0, 1, 2]
  , columns :=
      [ ("water level", [11/10, 9/5, 23/10])
      , ("unused flag", [0, 0, 1])
      , ("return period", [2, 5, 10]) ] }

/-- modA with an extra column appended and different unused index not
possible (index is used), so only an extra column. -/
def modAExtra : DataFrame :=
  { index := [1, 10, 100]
  , columns :=
      [ ("return value", [1, 2, 3])
      , ("lower ci", [0, 1, 2])
      , ("upper ci", [2, 3, 4])
      , ("standard error", [1/10, 1/5, 3/10]) ] }

/-- Some nontrivial prior global rcParams. -/
def g0 : RcParams := [("font.family", "helvetica"), ("lines.linewidth", "1.5")]

/-! Helper lemmas shared by the claim theorems. -/

/-- The lookup of the first column by its own name returns its values
(the first match is the head itself). -/
lemma DataFrame.loc_head {df : DataFrame} {c : String × List Val}
    (h : df.columns.head? = some c) : df.loc c.1 = some c.2 := by
  unfold DataFrame.loc
  cases hc : df.columns with
  | nil => simp [hc] at h
  | cons x t =>
    rw [hc] at h
    simp at h
    subst h
    simp [List.find?]

/-- A table with a resolvable column has a first column. -/
lemma head?_of_loc_isSome {df : DataFrame} {k : String}
    (h : (df.loc k).isSome = true) : ∃ c, df.columns.head? = some c := by
  unfold DataFrame.loc at h
  cases hc : df.columns with
  | nil => rw [hc] at h; simp at h
  | cons x t => exact ⟨x, rfl⟩

/-- Every key of the override reads back its override value after the
update. -/
lemma lookupRc_rcUpdate (g ov : RcParams) (k : String)
    (h : (lookupRc ov k).isSome = true) :
    lookupRc (rcUpdate g ov) k = lookupRc ov k := by
  unfold lookupRc rcUpdate at *
  rw [List.find?_append]
  cases hf : ov.find? (fun p => p.1 == k) with
  | none => rw [hf] at h; simp at h
  | some v => rfl

/-- Success case of the draw sequence: with all four columns present,
the call appends exactly the ten events of `successTail`. -/
lemma draw_all_ok {observed modeled : DataFrame} {fig : Option Figure} {a : Axes}
    {rv lowerCi upperCi returnPeriods : List Val} {firstCol : String × List Val}
    (h1 : modeled.loc "return value" = some rv)
    (h2 : modeled.loc "lower ci" = some lowerCi)
    (h3 : modeled.loc "upper ci" = some upperCi)
    (h4 : observed.loc "return period" = some returnPeriods)
    (h5 : observed.columns.head? = some firstCol) :
    draw_all observed modeled fig a =
      .ok fig { events := a.events ++
        successTail modeled.index rv lowerCi upperCi returnPeriods firstCol } := by
  unfold draw_all
  simp only [h1, h2, h3, h4, h5, DataFrame.loc_head h5]
  simp [Axes.issue, successTail]

/-- Failure at the first access: only the three configuration events
were issued. -/
lemma draw_all_err_rv {observed modeled : DataFrame} {fig : Option Figure} {a : Axes}
    (h1 : modeled.loc "return value" = none) :
    draw_all observed modeled fig a =
      .err (.keyError "return value") fig { events := a.events ++ configEvents } := by
  unfold draw_all
  simp only [h1]
  simp [Axes.issue, configEvents]

/-- Failure at the lower-ci access: configuration plus the central
curve were issued. -/
lemma draw_all_err_lower {observed modeled : DataFrame} {fig : Option Figure} {a : Axes}
    {rv : List Val}
    (h1 : modeled.loc "return value" = some rv)
    (h2 : modeled.loc "lower ci" = none) :
    draw_all observed modeled fig a =
      .err (.keyError "lower ci") fig { events := a.events ++ configEvents ++
        [.plotLine modeled.index rv "#F85C50" 2 "-" 20] } := by
  unfold draw_all
  simp only [h1, h2]
  simp [Axes.issue, configEvents]

/-- Failure at the upper-ci access: configuration, the central curve
and the lower bound were issued. -/
lemma draw_all_err_upper {observed modeled : DataFrame} {fig : Option Figure} {a : Axes}
    {rv lowerCi : List Val}
    (h1 : modeled.loc "return value" = some rv)
    (h2 : modeled.loc "lower ci" = some lowerCi)
    (h3 : modeled.loc "upper ci" = none) :
    draw_all observed modeled fig a =
      .err (.keyError "upper ci") fig { events := a.events ++ configEvents ++
        [.plotLine modeled.index rv "#F85C50" 2 "-" 20,
         .plotLine modeled.index lowerCi "#5199FF" 1 "--" 15] } := by
  unfold draw_all
  simp only [h1, h2, h3]
  simp [Axes.issue, configEvents]

/-- Failure at the return-period access: configuration, both curves,
the upper bound and the band were already issued. -/
lemma draw_all_err_rp {observed modeled : DataFrame} {fig : Option Figure} {a : Axes}
    {rv lowerCi upperCi : List Val}
    (h1 : modeled.loc "return value" = some rv)
    (h2 : modeled.loc "lower ci" = some lowerCi)
    (h3 : modeled.loc "upper ci" = some upperCi)
    (h4 : observed.loc "return period" = none) :
    draw_all observed modeled fig a =
      .err (.keyError "return period") fig { events := a.events ++ configEvents ++
        [.plotLine modeled.index rv "#F85C50" 2 "-" 20,
         .plotLine modeled.index lowerCi "#5199FF" 1 "--" 15,
         .plotLine modeled.index upperCi "#5199FF" 1 "--" 15,
         .fillBetween modeled.index lowerCi upperCi "#5199FF" "None" 0.25 10] } := by
  unfold draw_all
  simp only [h1, h2, h3, h4]
  simp [Axes.issue, configEvents]

/-- The figure handle of the result is whatever was created before the
draw sequence, on every path. -/
lemma draw_all_figOpt (observed modeled : DataFrame) (fig : Option Figure) (a : Axes) :
    (draw_all observed modeled fig a).figOpt = fig := by
  unfold draw_all
  repeat' split
  all_goals rfl

lemma plot_body_figOpt_none (observed modeled : DataFrame) (fs : ℚ × ℚ) (rc : RcParams) :
    (plot_body observed modeled none fs rc).figOpt =
      some { figsize := fs, dpi := 96, rc := rc } := by
  unfold plot_body
  exact draw_all_figOpt ..

lemma plot_body_figOpt_some (observed modeled : DataFrame) (a : Axes) (fs : ℚ × ℚ) (rc : RcParams) :
    (plot_body observed modeled (some a) fs rc).figOpt = none := by
  unfold plot_body
  exact draw_all_figOpt ..

/-- Shared success-path characterization: with all columns present the
call appends exactly `successTail` to the prior events of the target. -/
lemma plot_events_ok (observed modeled : DataFrame) (ax : Option Axes)
    (fs : ℚ × ℚ) (g : RcParams)
    (rv lowerCi upperCi returnPeriods : List Val)
    (firstCol : String × List Val)
    (h1 : modeled.loc "return value" = some rv)
    (h2 : modeled.loc "lower ci" = some lowerCi)
    (h3 : modeled.loc "upper ci" = some upperCi)
    (h4 : observed.loc "return period" = some returnPeriods)
    (h5 : observed.columns.head? = some firstCol) :
    (plot_return_values observed modeled ax fs g).1.axes.events =
      initialEvents ax ++
        successTail modeled.index rv lowerCi upperCi returnPeriods firstCol := by
  cases ax with
  | none =>
    simp only [plot_return_values, plot_body]
    rw [draw_all_ok h1 h2 h3 h4 h5]
    simp [PlotResult.axes, initialEvents]
  | some a =>
    simp only [plot_return_values, plot_body]
    rw [draw_all_ok h1 h2 h3 h4 h5]
    simp [PlotResult.axes, initialEvents]

/-- Claim C1: for every valid observed/modeled table pair the call
returns a pair of handles; the figure handle is present if and only if
no target axes argument was supplied, so re-invoking any number of
times with a provided existing axes never yields a present figure
handle. -/
theorem C1_fig_present_iff_no_axes (observed modeled : DataFrame)
    (ax : Option Axes) (fs : ℚ × ℚ) (g : RcParams)
    (h : validPair observed modeled) :
    (plot_return_values observed modeled ax fs g).1.isOk = true ∧
    (((plot_return_values observed modeled ax fs g).1.figOpt).isSome = true ↔
      ax = none) := by
  obtain ⟨h4, h1, h2, h3⟩ := h
  obtain ⟨rv, hrv⟩ := Option.isSome_iff_exists.mp h1
  obtain ⟨lo, hlo⟩ := Option.isSome_iff_exists.mp h2
  obtain ⟨hi, hhi⟩ := Option.isSome_iff_exists.mp h3
  obtain ⟨rp, hrp⟩ := Option.isSome_iff_exists.mp h4
  obtain ⟨c0, hc0⟩ := head?_of_loc_isSome h4
  cases ax with
  | none =>
    simp only [plot_return_values, plot_body]
    rw [draw_all_ok hrv hlo hhi hrp hc0]
    simp [PlotResult.isOk, PlotResult.figOpt]
  | some a =>
    simp only [plot_return_values, plot_body]
    rw [draw_all_ok hrv hlo hhi hrp hc0]
    simp [PlotResult.isOk, PlotResult.figOpt]

theorem C1_fig_present_iff_no_axes_witness :
    (plot_return_values obsA modA none default_figsize g0).1.isOk = true ∧
    ((plot_return_values obsA modA (some { events := [] }) default_figsize
        g0).1.figOpt = none) :=
  ⟨(C1_fig_present_iff_no_axes obsA modA none default_figsize g0
      (by decide)).1,
   by
    have h := (C1_fig_present_iff_no_axes obsA modA
      (some { events := [] }) default_figsize g0 (by decide)).2
    simp at h
    exact Option.not_isSome_iff_eq_none.mp (by simp [h])⟩

/-- Claim C2, counterexample: with an observed table lacking the
"return period" column and a fully-equipped modeled table, the call
without target axes does fail with the KeyError for that column, but
only after seven side effects were already issued on the freshly
created surface, four of them data-drawing calls (central curve, two
bounds, band); so the failure does not come before every drawing side
effect. -/
theorem C2_counterexample :
    (plot_return_values obsMissingRP modA none default_figsize g0).1.error?
        = some (.keyError "return period") ∧
    (plot_return_values obsMissingRP modA none default_figsize
        g0).1.axes.events.length = 7 ∧
    ((plot_return_values obsMissingRP modA none default_figsize
        g0).1.axes.events.filter
          (fun e => (DrawEvent.zorderOf e).isSome)).length = 4 := by
  refine ⟨?_, ?_, ?_⟩ <;> decide

/-- Claim C2 (amended): omitting a required column makes the call fail
at the first access to that column, in the access order of the draw
sequence; the surface then holds exactly the side effects issued before
that access (beginning with the three axis-configuration events,
`prefixLen` many in total), and nothing that depends on the missing
column was drawn. -/
theorem C2_fail_at_first_missing_access (observed modeled : DataFrame)
    (fs : ℚ × ℚ) (g : RcParams) (c : String)
    (h : firstMissing observed modeled = some c) :
    (plot_return_values observed modeled none fs g).1.error?
        = some (.keyError c) ∧
    (plot_return_values observed modeled none fs g).1.isOk = false ∧
    (plot_return_values observed modeled none fs g).1.axes.events.take 3
        = configEvents ∧
    (plot_return_values observed modeled none fs g).1.axes.events.length
        = prefixLen c := by
  unfold firstMissing at h
  cases hrv : modeled.loc "return value" with
  | none =>
    rw [hrv] at h
    simp at h
    subst h
    simp only [plot_return_values, plot_body]
    rw [draw_all_err_rv hrv]
    refine ⟨rfl, rfl, ?_, ?_⟩ <;>
      simp [PlotResult.axes, configEvents, prefixLen]
  | some rv =>
    rw [hrv] at h
    simp only [Option.isNone_some, if_false, Bool.false_eq_true, if_neg] at h
    cases hlo : modeled.loc "lower ci" with
    | none =>
      rw [hlo] at h
      simp at h
      subst h
      simp only [plot_return_values, plot_body]
      rw [draw_all_err_lower hrv hlo]
      refine ⟨rfl, rfl, ?_, ?_⟩ <;>
        simp [PlotResult.axes, configEvents, prefixLen]
    | some lo =>
      rw [hlo] at h
      simp only [Option.isNone_some, if_false, Bool.false_eq_true, if_neg] at h
      cases hhi : modeled.loc "upper ci" with
      | none =>
        rw [hhi] at h
        simp at h
        subst h
        simp only [plot_return_values, plot_body]
        rw [draw_all_err_upper hrv hlo hhi]
        refine ⟨rfl, rfl, ?_, ?_⟩ <;>
          simp [PlotResult.axes, configEvents, prefixLen]
      | some hi =>
        rw [hhi] at h
        simp only [Option.isNone_some, if_false, Bool.false_eq_true, if_neg] at h
        cases hrp : observed.loc "return period" with
        | none =>
          rw [hrp] at h
          simp at h
          subst h
          simp only [plot_return_values, plot_body]
          rw [draw_all_err_rp hrv hlo hhi hrp]
          refine ⟨rfl, rfl, ?_, ?_⟩ <;>
            simp [PlotResult.axes, configEvents, prefixLen]
        | some rp =>
          rw [hrp] at h
          simp at h

theorem C2_fail_at_first_missing_access_witness :
    (plot_return_values obsA modMissingUpper none default_figsize
        g0).1.error? = some (.keyError "upper ci") ∧
    (plot_return_values obsA modMissingUpper none default_figsize
        g0).1.isOk = false ∧
    (plot_return_values obsA modMissingUpper none default_figsize
        g0).1.axes.events.take 3 = configEvents ∧
    (plot_return_values obsA modMissingUpper none default_figsize
        g0).1.axes.events.length = prefixLen "upper ci" :=
  C2_fail_at_first_missing_access obsA modMissingUpper default_figsize g0
    "upper ci" (by decide)

/-- Claim C3, counterexample: the default of the figsize parameter in
the source is `(8, 8/1.618)`, whose second component is not 4.944, so
the claimed default `(8, 4.944)` is not the size at which a
default-sized figure is created. -/
theorem C3_counterexample :
    ((plot_return_values obsA modA none default_figsize g0).1.figOpt).map
        Figure.figsize = some default_figsize ∧
    default_figsize ≠ ((8 : ℚ), 4.944) := by
  constructor
  · rfl
  · intro h
    have h2 := congrArg Prod.snd h
    norm_num [default_figsize] at h2

/-- Claim C3 (amended): when no axes are supplied the figure is created
at the caller-given size, the default of the size parameter is
`(8, 8/1.618)` (approximately `(8, 4.9444)`), and the rendering
resolution is the fixed value 96 dpi on every such call. -/
theorem C3_figure_size_and_dpi (observed modeled : DataFrame)
    (fs : ℚ × ℚ) (g : RcParams) :
    (((plot_return_values observed modeled none fs g).1.figOpt).map
        (fun f => (f.figsize, f.dpi))) = some (fs, 96) ∧
    default_figsize = (8, 8 / 1.618) := by
  constructor
  · simp only [plot_return_values]
    rw [plot_body_figOpt_none]
    rfl
  · rfl

/-- Claim C4: on a successful call the horizontal-axis label is the
string "Return period" and the vertical-axis label is, verbatim, the
name of the first column of the observed table; they are the last two
events issued. -/
theorem C4_axis_labels (observed modeled : DataFrame) (ax : Option Axes)
    (fs : ℚ × ℚ) (g : RcParams) (firstCol : String × List Val)
    (h : validPair observed modeled)
    (hc0 : observed.columns.head? = some firstCol) :
    ((plot_return_values observed modeled ax fs g).1.axes.events.reverse.take 2)
      = [.ylabel firstCol.1, .xlabel "Return period"] := by
  obtain ⟨h4, h1, h2, h3⟩ := h
  obtain ⟨rv, hrv⟩ := Option.isSome_iff_exists.mp h1
  obtain ⟨lo, hlo⟩ := Option.isSome_iff_exists.mp h2
  obtain ⟨hi, hhi⟩ := Option.isSome_iff_exists.mp h3
  obtain ⟨rp, hrp⟩ := Option.isSome_iff_exists.mp h4
  rw [plot_events_ok observed modeled ax fs g rv lo hi rp firstCol
    hrv hlo hhi hrp hc0]
  simp [successTail]

theorem C4_axis_labels_witness :
    ((plot_return_values obsCustomName modA none default_figsize
        g0).1.axes.events.reverse.take 2)
      = [.ylabel "surge height (m)", .xlabel "Return period"] :=
  C4_axis_labels obsCustomName modA none default_figsize g0
    ("surge height (m)", [3]) (by decide) (by decide)

/-- Claim C5: a successful call issues exactly this event sequence, in
this order, after whatever the target surface already held: logarithmic
horizontal scaling; grid on both axes at major and minor ticks; the
zero-decimal formatter on horizontal tick labels; the central curve as
a solid line of weight 2; the two confidence bounds as dashed lines of
weight 1; the semi-transparent filled band between the bounds; the
observed points as circular markers of size 20 with dark fill and light
edge; then the two axis labels (the sequence spelled out in
`successTail`). -/
theorem C5_draw_sequence (observed modeled : DataFrame) (ax : Option Axes)
    (fs : ℚ × ℚ) (g : RcParams)
    (rv lowerCi upperCi returnPeriods : List Val)
    (firstCol : String × List Val)
    (h1 : modeled.loc "return value" = some rv)
    (h2 : modeled.loc "lower ci" = some lowerCi)
    (h3 : modeled.loc "upper ci" = some upperCi)
    (h4 : observed.loc "return period" = some returnPeriods)
    (h5 : observed.columns.head? = some firstCol) :
    (plot_return_values observed modeled ax fs g).1.axes.events =
      initialEvents ax ++
        successTail modeled.index rv lowerCi upperCi returnPeriods firstCol :=
  plot_events_ok observed modeled ax fs g rv lowerCi upperCi returnPeriods
    firstCol h1 h2 h3 h4 h5

theorem C5_draw_sequence_witness :
    (plot_return_values obsA modA none default_figsize g0).1.axes.events =
      initialEvents none ++
        successTail [1, 10, 100] [1, 2, 3] [0, 1, 2] [2, 3, 4] [2, 5, 10]
          ("water level", [11/10, 9/5, 23/10]) :=
  C5_draw_sequence obsA modA none default_figsize g0
    [1, 2, 3] [0, 1, 2] [2, 3, 4] [2, 5, 10]
    ("water level", [11/10, 9/5, 23/10]) rfl rfl rfl rfl rfl

/-- Claim C6: among the events a successful call draws on the target
surface, the filled band has strictly lower z-order than each dashed
bound curve, and each dashed bound curve (as well as the band) has
strictly lower z-order than both the solid central curve and the
observed-point markers. -/
theorem C6_zorder_invariant (observed modeled : DataFrame) (ax : Option Axes)
    (fs : ℚ × ℚ) (g : RcParams)
    (rv lowerCi upperCi returnPeriods : List Val)
    (firstCol : String × List Val)
    (h1 : modeled.loc "return value" = some rv)
    (h2 : modeled.loc "lower ci" = some lowerCi)
    (h3 : modeled.loc "upper ci" = some upperCi)
    (h4 : observed.loc "return period" = some returnPeriods)
    (h5 : observed.columns.head? = some firstCol) :
    ∀ e ∈ (plot_return_values observed modeled ax fs g).1.axes.events.drop
        (initialEvents ax).length,
      ∀ f ∈ (plot_return_values observed modeled ax fs g).1.axes.events.drop
        (initialEvents ax).length,
      (e.isBand = true → f.isDashed = true → e.zVal < f.zVal) ∧
      (e.isBand = true → (f.isSolidLine = true ∨ f.isMarkers = true) →
        e.zVal < f.zVal) ∧
      (e.isDashed = true → (f.isSolidLine = true ∨ f.isMarkers = true) →
        e.zVal < f.zVal) := by
  rw [plot_events_ok observed modeled ax fs g rv lowerCi upperCi
    returnPeriods firstCol h1 h2 h3 h4 h5, List.drop_left]
  intro e he f hf
  simp only [successTail, List.mem_cons, List.not_mem_nil, or_false] at he hf
  rcases he with rfl|rfl|rfl|rfl|rfl|rfl|rfl|rfl|rfl|rfl <;>
    rcases hf with rfl|rfl|rfl|rfl|rfl|rfl|rfl|rfl|rfl|rfl <;>
      simp [DrawEvent.isBand, DrawEvent.isDashed, DrawEvent.isSolidLine,
        DrawEvent.isMarkers, DrawEvent.zVal, DrawEvent.zorderOf]

theorem C6_zorder_invariant_witness :
    DrawEvent.zVal
        (.fillBetween [1, 10, 100] [0, 1, 2] [2, 3, 4] "#5199FF" "None" 0.25 10)
      < DrawEvent.zVal (.plotLine [1, 10, 100] [0, 1, 2] "#5199FF" 1 "--" 15) :=
  (C6_zorder_invariant obsA modA none default_figsize g0
      [1, 2, 3] [0, 1, 2] [2, 3, 4] [2, 5, 10]
      ("water level", [11/10, 9/5, 23/10]) rfl rfl rfl rfl rfl
      (.fillBetween [1, 10, 100] [0, 1, 2] [2, 3, 4] "#5199FF" "None" 0.25 10)
      (by rw [plot_events_ok obsA modA none default_figsize g0
          [1, 2, 3] [0, 1, 2] [2, 3, 4] [2, 5, 10]
          ("water level", [11/10, 9/5, 23/10]) rfl rfl rfl rfl rfl]
          ; simp [successTail, initialEvents, modA])
      (.plotLine [1, 10, 100] [0, 1, 2] "#5199FF" 1 "--" 15)
      (by rw [plot_events_ok obsA modA none default_figsize g0
          [1, 2, 3] [0, 1, 2] [2, 3, 4] [2, 5, 10]
          ("water level", [11/10, 9/5, 23/10]) rfl rfl rfl rfl rfl]
          ; simp [successTail, initialEvents, modA])).1 rfl rfl

/-- Claim C7: during the call the process-wide rendering defaults are
overridden by the style mapping (the created figure records them, and
every key of `pyextremes_rc` reads back its style value), and the
second component of the result — the global rcParams after the call,
returned on every path, normal or error — equals the prior globals. -/
theorem C7_rc_context_scoped (observed modeled : DataFrame) (ax : Option Axes)
    (fs : ℚ × ℚ) (g : RcParams) :
    (plot_return_values observed modeled ax fs g).2 = g ∧
    (∀ f, (plot_return_values observed modeled ax fs g).1.figOpt = some f →
      f.rc = rcUpdate g pyextremes_rc) ∧
    (∀ k, (lookupRc pyextremes_rc k).isSome = true →
      lookupRc (rcUpdate g pyextremes_rc) k = lookupRc pyextremes_rc k) := by
  refine ⟨rfl, ?_, fun k hk => lookupRc_rcUpdate g pyextremes_rc k hk⟩
  intro f hf
  cases ax with
  | none =>
    have hfig := plot_body_figOpt_none observed modeled fs
      (rcUpdate g pyextremes_rc)
    simp only [plot_return_values] at hf
    rw [hfig] at hf
    cases hf
    rfl
  | some a =>
    have hfig := plot_body_figOpt_some observed modeled a fs
      (rcUpdate g pyextremes_rc)
    simp only [plot_return_values] at hf
    rw [hfig] at hf
    cases hf

theorem C7_rc_context_scoped_witness :
    (plot_return_values obsA modA none default_figsize g0).2 = g0 ∧
    ({ figsize := default_figsize, dpi := 96,
       rc := rcUpdate g0 pyextremes_rc } : Figure).rc
        = rcUpdate g0 pyextremes_rc ∧
    lookupRc (rcUpdate g0 pyextremes_rc) "font.family"
        = lookupRc pyextremes_rc "font.family" :=
  ⟨(C7_rc_context_scoped obsA modA none default_figsize g0).1,
   (C7_rc_context_scoped obsA modA none default_figsize g0).2.1 _ rfl,
   (C7_rc_context_scoped obsA modA none default_figsize g0).2.2
     "font.family" (by decide)⟩

/-- Claim C8: the call never mutates the caller-held tables: in the
state-threaded view of the call, the observed and modeled tables of the
post-call state are the tables of the pre-call state (the body performs
only reads on them, and the result holds copies of the read values,
never the tables themselves). -/
theorem C8_no_mutation (ax : Option Axes) (fs : ℚ × ℚ) (s : CallState) :
    (plot_return_values_stateful ax fs s).2.observed = s.observed ∧
    (plot_return_values_stateful ax fs s).2.modeled = s.modeled :=
  ⟨rfl, rfl⟩

lemma isSome_of_not_isNone {α : Type} {x : Option α}
    (h : ¬ x.isNone = true) : x.isSome = true := by
  cases x with
  | none => simp at h
  | some v => rfl

/-- A call with no missing column has a valid pair of tables. -/
lemma validPair_of_firstMissing_none {observed modeled : DataFrame}
    (h : firstMissing observed modeled = none) : validPair observed modeled := by
  unfold firstMissing at h
  split_ifs at h with h1 h2 h3 h4
  exact ⟨isSome_of_not_isNone h4, isSome_of_not_isNone h1,
    isSome_of_not_isNone h2, isSome_of_not_isNone h3⟩

/-- Characterization of every failing draw sequence: the error names
the first missing column and the surface holds the prior events plus
the `prefixLen` events issued before the failing access. -/
lemma draw_all_err_cases (observed modeled : DataFrame) (fig : Option Figure)
    (a : Axes) (c : String)
    (h : firstMissing observed modeled = some c) :
    (draw_all observed modeled fig a).error? = some (.keyError c) ∧
    (draw_all observed modeled fig a).isOk = false ∧
    (draw_all observed modeled fig a).axes.events.length
        = a.events.length + prefixLen c ∧
    (draw_all observed modeled fig a).axes.events.take a.events.length
        = a.events := by
  unfold firstMissing at h
  cases hrv : modeled.loc "return value" with
  | none =>
    rw [hrv] at h
    simp at h
    subst h
    rw [draw_all_err_rv hrv]
    refine ⟨rfl, rfl, ?_, ?_⟩ <;>
      simp [PlotResult.axes, configEvents, prefixLen, List.take_left]
  | some rv =>
    rw [hrv] at h
    simp only [Option.isNone_some, if_false, Bool.false_eq_true, if_neg] at h
    cases hlo : modeled.loc "lower ci" with
    | none =>
      rw [hlo] at h
      simp at h
      subst h
      rw [draw_all_err_lower hrv hlo]
      refine ⟨rfl, rfl, ?_, ?_⟩ <;>
        simp [PlotResult.axes, configEvents, prefixLen, List.take_left,
          List.append_assoc]
    | some lo =>
      rw [hlo] at h
      simp only [Option.isNone_some, if_false, Bool.false_eq_true, if_neg] at h
      cases hhi : modeled.loc "upper ci" with
      | none =>
        rw [hhi] at h
        simp at h
        subst h
        rw [draw_all_err_upper hrv hlo hhi]
        refine ⟨rfl, rfl, ?_, ?_⟩ <;>
          simp [PlotResult.axes, configEvents, prefixLen, List.take_left,
            List.append_assoc]
      | some hi =>
        rw [hhi] at h
        simp only [Option.isNone_some, if_false, Bool.false_eq_true, if_neg] at h
        cases hrp : observed.loc "return period" with
        | none =>
          rw [hrp] at h
          simp at h
          subst h
          rw [draw_all_err_rp hrv hlo hhi hrp]
          refine ⟨rfl, rfl, ?_, ?_⟩ <;>
            simp [PlotResult.axes, configEvents, prefixLen, List.take_left,
              List.append_assoc]
        | some rp =>
          rw [hrp] at h
          simp at h

/-- Claim C9: no validation, no retry, no rollback: a call succeeds
exactly when no required column is missing, in which case the full
ten-event draw sequence was appended; otherwise it fails with the
KeyError of the first failing column access and the surface keeps the
prior events plus exactly the side effects issued before that access. -/
theorem C9_all_or_nothing (observed modeled : DataFrame) (ax : Option Axes)
    (fs : ℚ × ℚ) (g : RcParams) :
    ((plot_return_values observed modeled ax fs g).1.isOk = true ↔
      firstMissing observed modeled = none) ∧
    (firstMissing observed modeled = none →
      (plot_return_values observed modeled ax fs g).1.axes.events.length =
        (initialEvents ax).length + 10) ∧
    (∀ c, firstMissing observed modeled = some c →
      (plot_return_values observed modeled ax fs g).1.error?
          = some (.keyError c) ∧
      (plot_return_values observed modeled ax fs g).1.axes.events.length =
        (initialEvents ax).length + prefixLen c ∧
      (plot_return_values observed modeled ax fs g).1.axes.events.take
        (initialEvents ax).length = initialEvents ax) := by
  cases hfm : firstMissing observed modeled with
  | none =>
    obtain ⟨h4, h1, h2, h3⟩ := validPair_of_firstMissing_none hfm
    obtain ⟨rv, hrv⟩ := Option.isSome_iff_exists.mp h1
    obtain ⟨lo, hlo⟩ := Option.isSome_iff_exists.mp h2
    obtain ⟨hi, hhi⟩ := Option.isSome_iff_exists.mp h3
    obtain ⟨rp, hrp⟩ := Option.isSome_iff_exists.mp h4
    obtain ⟨c0, hc0⟩ := head?_of_loc_isSome h4
    have hev := plot_events_ok observed modeled ax fs g rv lo hi rp c0
      hrv hlo hhi hrp hc0
    refine ⟨?_, fun _ => ?_, fun c hc => absurd hc (by simp)⟩
    · cases ax with
      | none =>
        simp only [plot_return_values, plot_body]
        rw [draw_all_ok hrv hlo hhi hrp hc0]
        simp [PlotResult.isOk]
      | some a =>
        simp only [plot_return_values, plot_body]
        rw [draw_all_ok hrv hlo hhi hrp hc0]
        simp [PlotResult.isOk]
    · rw [hev]
      simp [successTail]
  | some c =>
    have key : ∀ (fig : Option Figure) (a : Axes),
        (draw_all observed modeled fig a).error? = some (.keyError c) ∧
        (draw_all observed modeled fig a).isOk = false ∧
        (draw_all observed modeled fig a).axes.events.length
            = a.events.length + prefixLen c ∧
        (draw_all observed modeled fig a).axes.events.take a.events.length
            = a.events :=
      fun fig a => draw_all_err_cases observed modeled fig a c hfm
    refine ⟨?_, fun hn => absurd hn (by simp), fun d hd => ?_⟩
    · cases ax with
      | none =>
        simp only [plot_return_values, plot_body]
        rw [(key _ _).2.1]
        simp
      | some a =>
        simp only [plot_return_values, plot_body]
        rw [(key _ _).2.1]
        simp
    · obtain rfl : c = d := by injection hd
      cases ax with
      | none =>
        simp only [plot_return_values, plot_body]
        exact ⟨(key _ _).1, (key _ _).2.2.1, (key _ _).2.2.2⟩
      | some a =>
        simp only [plot_return_values, plot_body]
        exact ⟨(key _ _).1, (key _ _).2.2.1, (key _ _).2.2.2⟩

theorem C9_all_or_nothing_witness :
    (plot_return_values obsA modA none default_figsize g0).1.axes.events.length
        = (initialEvents (none : Option Axes)).length + 10 ∧
    (plot_return_values obsA modMissingUpper (some { events := [.semilogx] })
        default_figsize g0).1.error? = some (.keyError "upper ci") :=
  ⟨(C9_all_or_nothing obsA modA none default_figsize g0).2.1 (by decide),
   ((C9_all_or_nothing obsA modMissingUpper (some { events := [.semilogx] })
       default_figsize g0).2.2 "upper ci" (by decide)).1⟩

/-- The draw sequence reads the tables only through the projections the
claims list: the modeled index and its three named columns, the
observed return periods and its first column. -/
lemma draw_all_congr {observed₁ observed₂ modeled₁ modeled₂ : DataFrame}
    (fig : Option Figure) (a : Axes)
    (hidx : modeled₁.index = modeled₂.index)
    (hrv : modeled₁.loc "return value" = modeled₂.loc "return value")
    (hlo : modeled₁.loc "lower ci" = modeled₂.loc "lower ci")
    (hhi : modeled₁.loc "upper ci" = modeled₂.loc "upper ci")
    (hrp : observed₁.loc "return period" = observed₂.loc "return period")
    (hc0 : observed₁.columns.head? = observed₂.columns.head?) :
    draw_all observed₁ modeled₁ fig a = draw_all observed₂ modeled₂ fig a := by
  cases hrv2 : modeled₂.loc "return value" with
  | none =>
    rw [draw_all_err_rv (hrv.trans hrv2), draw_all_err_rv hrv2]
  | some rv =>
    cases hlo2 : modeled₂.loc "lower ci" with
    | none =>
      rw [draw_all_err_lower (hrv.trans hrv2) (hlo.trans hlo2),
        draw_all_err_lower hrv2 hlo2, hidx]
    | some lo =>
      cases hhi2 : modeled₂.loc "upper ci" with
      | none =>
        rw [draw_all_err_upper (hrv.trans hrv2) (hlo.trans hlo2)
          (hhi.trans hhi2), draw_all_err_upper hrv2 hlo2 hhi2, hidx]
      | some hi =>
        cases hrp2 : observed₂.loc "return period" with
        | none =>
          rw [draw_all_err_rp (hrv.trans hrv2) (hlo.trans hlo2)
            (hhi.trans hhi2) (hrp.trans hrp2),
            draw_all_err_rp hrv2 hlo2 hhi2 hrp2, hidx]
        | some rp =>
          obtain ⟨c0, hc02⟩ := @head?_of_loc_isSome observed₂
            "return period" (by rw [hrp2]; rfl)
          rw [draw_all_ok (hrv.trans hrv2) (hlo.trans hlo2) (hhi.trans hhi2)
            (hrp.trans hrp2) (hc0.trans hc02),
            draw_all_ok hrv2 hlo2 hhi2 hrp2 hc02, hidx]

/-- Claim C10: the result of a call (drawn events, returned handles,
restored globals) depends only on the modeled index and its
"return value", "lower ci" and "upper ci" columns and on the observed
"return period" column and first column (name and values); two calls
agreeing on exactly these parts give identical results, so extra
columns in either table are ignored. -/
theorem C10_noninterference (observed₁ observed₂ modeled₁ modeled₂ : DataFrame)
    (ax : Option Axes) (fs : ℚ × ℚ) (g : RcParams)
    (hidx : modeled₁.index = modeled₂.index)
    (hrv : modeled₁.loc "return value" = modeled₂.loc "return value")
    (hlo : modeled₁.loc "lower ci" = modeled₂.loc "lower ci")
    (hhi : modeled₁.loc "upper ci" = modeled₂.loc "upper ci")
    (hrp : observed₁.loc "return period" = observed₂.loc "return period")
    (hc0 : observed₁.columns.head? = observed₂.columns.head?) :
    plot_return_values observed₁ modeled₁ ax fs g =
      plot_return_values observed₂ modeled₂ ax fs g := by
  cases ax with
  | none =>
    simp only [plot_return_values, plot_body]
    rw [draw_all_congr _ _ hidx hrv hlo hhi hrp hc0]
  | some a =>
    simp only [plot_return_values, plot_body]
    rw [draw_all_congr _ _ hidx hrv hlo hhi hrp hc0]

theorem C10_noninterference_witness :
    plot_return_values obsA modA none default_figsize g0 =
      plot_return_values obsAExtra modAExtra none default_figsize g0 :=
  C10_noninterference obsA obsAExtra modA modAExtra none default_figsize g0
    rfl rfl rfl rfl rfl rfl
